import Mathlib

/-!
# Verification of the due-reminder detection and delivery pipeline

Shallow embedding of the reminder sweep of the `line-bot-bishop` repository:
the candidate fetch, due-window evaluation, dispatch and mark-sent logic of
`src/app.js` (`InterviewManager`, `ReminderManager`, the `/trigger-reminders`
endpoint), the serverless variant in `src/api/trigger-reminders.js`, the
`sendDueReminders` pipeline of the reminder service, and the
`parseReminderCommand` text parser.

Modelling conventions:
* Instants are integer numbers of seconds; a calendar date is an integer day
  number (`interview_day`) plus a time-of-day in seconds (`interview_tod`),
  so the target instant is `86400 * day + tod`.  The source compares the
  real-valued fractional-hour difference `moment.diff(now, 'hours', true)`
  against half-hour bounds; scaling by 3600 turns every bound the code uses
  into an exact integer of seconds (23.5 h = 84600 s, 24.5 h = 88200 s,
  2.5 h = 9000 s, 3.5 h = 12600 s, 3 h = 10800 s, 1 h = 3600 s, 20 h =
  72000 s, 28 h = 100800 s), and the repository stores times at second
  granularity (`HH:mm:ss`), so the scaling is exact.  The date-string
  comparison `gte('interview_date', ...)` on `YYYY-MM-DD` strings is exactly
  the order on day numbers.  One fixed time zone is assumed throughout,
  matching the source's use of a single zone per implementation.
* External effects (the Supabase store, the LINE transport) are modelled by
  explicit parameters: `pushOk` gives the transport outcome for a recipient,
  `markOk` gives the store outcome of a flag update, `fetchErr` injects a
  candidate-fetch failure.  A trace of `Ev` events records each externally
  visible action in program order: the push attempt with its transport
  outcome, the reported dispatch result, and the mark attempt with its store
  outcome.
-/

/-- The two reminder buckets of the system: the 24-hour and 3-hour lead. -/
inductive ReminderType where
  | h24
  | h3
deriving DecidableEq, Repr

/-- Human label used in error strings: `'24h'` / `'3h'` in the source. -/
def rtLabel : ReminderType → String
  | .h24 => "24h"
  | .h3 => "3h"

/-- A row of the `interviews` table as read by `src/app.js`: boolean
`reminder_24h_sent` / `reminder_3h_sent` flags, owner id (`user_id`; `none`
models a JS-falsy value), and the target date (day number) and time-of-day
(seconds). -/
structure Interview where
  id : Nat
  user_id : Option String
  interviewee_name : String
  interview_day : Int
  interview_tod : Int
  reason : Option String
  reminder_24h_sent : Bool
  reminder_3h_sent : Bool
deriving DecidableEq, Repr

/-- The target instant in seconds: `moment.tz(date + ' ' + time)` resolved in
the fixed zone. -/
def Interview.target (i : Interview) : Int :=
  86400 * i.interview_day + i.interview_tod

/-- `interviewDateTime.diff(now, 'hours', true)` scaled to seconds: the
difference between the target instant and the reference instant. -/
def diffSecs (i : Interview) (now : Int) : Int :=
  i.target - now

/-- `src/app.js` lines 153-156: the 24h bucket is due when the flag is unset
and the difference lies between 23.5 and 24.5 hours (84600 and 88200 s). -/
def due24 (i : Interview) (now : Int) : Bool :=
  !i.reminder_24h_sent && decide (84600 ≤ diffSecs i now)
    && decide (diffSecs i now ≤ 88200)

/-- `src/app.js` lines 158-161: the 3h bucket is due when the flag is unset
and the difference lies between 2.5 and 3.5 hours (9000 and 12600 s). -/
def due3 (i : Interview) (now : Int) : Bool :=
  !i.reminder_3h_sent && decide (9000 ≤ diffSecs i now)
    && decide (diffSecs i now ≤ 12600)

/-- The candidate fetch of `getInterviewsNeedingReminders` in `src/app.js`
(lines 134-138): rows where some flag is still false, with the interview date
on or after today's date. -/
def fetchCandidates (db : List Interview) (nowDay : Int) : List Interview :=
  db.filter fun i =>
    (!i.reminder_24h_sent || !i.reminder_3h_sent)
      && decide (nowDay ≤ i.interview_day)

/-! ## The serverless sweep variant (`src/api/trigger-reminders.js`)

In this implementation the sent flags are nullable timestamp columns (the
mark step writes `new Date().toISOString()`), candidates are prefetched with
`is('reminder_24h_sent', null)` plus a one-day date range, and the 24h filter
uses a 20-28 hour window. -/

/-- A row of the `interviews` table as read by `src/api/trigger-reminders.js`:
the sent "flags" are nullable timestamps. -/
structure ApiInterview where
  id : Nat
  user_id : Option String
  interviewee_name : String
  interview_day : Int
  interview_tod : Int
  reason : Option String
  reminder_24h_sent : Option String
  reminder_3h_sent : Option String
deriving DecidableEq, Repr

/-- Target instant in seconds, as in `Interview.target`. -/
def ApiInterview.target (i : ApiInterview) : Int :=
  86400 * i.interview_day + i.interview_tod

/-- The 24h candidate fetch of `src/api/trigger-reminders.js` (lines 32-37):
interviews dated tomorrow whose `reminder_24h_sent` column is null. -/
def apiFetch24 (db : List ApiInterview) (nowDay : Int) : List ApiInterview :=
  db.filter fun i =>
    decide (nowDay + 1 ≤ i.interview_day) && decide (i.interview_day < nowDay + 2)
      && i.reminder_24h_sent.isNone

/-- The 3h candidate fetch of `src/api/trigger-reminders.js` (lines 41-46):
interviews dated today whose `reminder_3h_sent` column is null. -/
def apiFetch3 (db : List ApiInterview) (nowDay : Int) : List ApiInterview :=
  db.filter fun i =>
    decide (nowDay ≤ i.interview_day) && decide (i.interview_day < nowDay + 1)
      && i.reminder_3h_sent.isNone

/-- The 24h time filter of `src/api/trigger-reminders.js` (lines 51-55):
`diffHours >= 20 && diffHours <= 28`, i.e. 72000 to 100800 seconds. -/
def apiFilter24 (l : List ApiInterview) (now : Int) : List ApiInterview :=
  l.filter fun i =>
    decide (72000 ≤ i.target - now) && decide (i.target - now ≤ 100800)

/-- The 3h time filter of `src/api/trigger-reminders.js` (lines 57-61):
`diffHours >= 2.5 && diffHours <= 3.5`, i.e. 9000 to 12600 seconds. -/
def apiFilter3 (l : List ApiInterview) (now : Int) : List ApiInterview :=
  l.filter fun i =>
    decide (9000 ≤ i.target - now) && decide (i.target - now ≤ 12600)

/-! ## The sweep of `src/app.js`

`Env` packages the sweep's inputs: the table contents, the reference instant
(`nowDay` is its calendar date, `nowTod` its time-of-day in seconds), the
configured fixed recipient (`BISHOP_LINE_USER_ID`), and the outcomes of the
external collaborators: `pushOk recipient` is whether `client.pushMessage`
succeeds for that recipient, `markOk id rt` is whether the Supabase update of
`markReminderSent` succeeds, and `fetchErr` injects a failure of the
candidate query (`some message` makes the fetch throw). -/
structure Env where
  db : List Interview
  nowDay : Int
  nowTod : Int
  bishop : Option String
  pushOk : String → Bool
  markOk : Nat → ReminderType → Bool
  fetchErr : Option String

/-- The reference instant in seconds. -/
def Env.now (e : Env) : Int :=
  86400 * e.nowDay + e.nowTod

/-- Trace events, in program order: a transport push attempt with its
outcome, the dispatch result reported by `sendReminderMessage`, and a
`markReminderSent` invocation with its store outcome. -/
inductive Ev where
  | push (id : Nat) (rt : ReminderType) (target : String) (delivered : Bool)
  | dispatch (id : Nat) (rt : ReminderType) (reportedSuccess : Bool)
  | mark (id : Nat) (rt : ReminderType) (ok : Bool)
deriving DecidableEq, Repr

/-- Whether an event is a transport push. -/
def Ev.isPush : Ev → Bool
  | .push _ _ _ _ => true
  | _ => false

/-- The `{success, error}` object returned by `sendReminderMessage`. -/
structure SendResult where
  success : Bool
  error : Option String
deriving DecidableEq, Repr

/-- `ReminderManager.sendReminderMessage` of `src/app.js` (lines 529-558):
the target is `BISHOP_LINE_USER_ID || interview.user_id`; with no target it
returns `{success: false, error: 'No bishop user ID configured'}`; otherwise
it pushes to the target — note that the push failure is swallowed by
`.catch(err => console.error(...))`, so the function reports success whether
or not the transport delivered.  The second component is the emitted trace. -/
def sendReminderMessageApp (env : Env) (i : Interview) (rt : ReminderType) :
    SendResult × List Ev :=
  match env.bishop <|> i.user_id with
  | none => (⟨false, some "No bishop user ID configured"⟩, [Ev.dispatch i.id rt false])
  | some t => (⟨true, none⟩, [Ev.push i.id rt t (env.pushOk t), Ev.dispatch i.id rt true])

/-- Set the given bucket's sent flag on a row. -/
def setFlag : ReminderType → Interview → Interview
  | .h24, i => { i with reminder_24h_sent := true }
  | .h3, i => { i with reminder_3h_sent := true }

/-- Read the given bucket's sent flag of a row. -/
def flagOf : ReminderType → Interview → Bool
  | .h24, i => i.reminder_24h_sent
  | .h3, i => i.reminder_3h_sent

/-- `InterviewManager.markReminderSent` of `src/app.js` (lines 181-201): a
single-row update of the bucket's flag, keyed by id.  When the store reports
an error (`markOk` false) the update does not happen and `{success: false}`
is returned; the boolean component is the reported success. -/
def markReminderSent (markOk : Nat → ReminderType → Bool) (db : List Interview)
    (iid : Nat) (rt : ReminderType) : List Interview × Bool :=
  if markOk iid rt then
    (db.map fun j => if j.id = iid then setFlag rt j else j, true)
  else
    (db, false)

/-- The error string pushed by `processReminders` for a failed pair:
`` `24h reminder for interview ${id}: ${error}` ``. -/
def pairErrMsg (rt : ReminderType) (iid : Nat) (err : Option String) : String :=
  rtLabel rt ++ " reminder for interview " ++ toString iid ++ ": " ++ err.getD ""

/-- Mutable state threaded through the per-pair loops of `processReminders`:
the table contents, the `totalSent` counter, the `errors` array, and the
ghost trace. -/
structure SweepState where
  db : List Interview
  totalSent : Nat
  errors : List String
  trace : List Ev
deriving Repr

/-- One iteration of the per-interview loops of `processReminders`
(`src/app.js` lines 580-595 and 598-613): dispatch; on reported success call
`markReminderSent` (its result is not inspected) and increment `totalSent`;
on reported failure push an error entry.  Exceptions cannot escape: every
callee returns a result object. -/
def procOne (env : Env) (rt : ReminderType) (st : SweepState) (i : Interview) :
    SweepState :=
  let r := sendReminderMessageApp env i rt
  if r.1.success then
    let m := markReminderSent env.markOk st.db i.id rt
    { db := m.1, totalSent := st.totalSent + 1, errors := st.errors,
      trace := st.trace ++ (r.2 ++ [Ev.mark i.id rt m.2]) }
  else
    { db := st.db, totalSent := st.totalSent,
      errors := st.errors ++ [pairErrMsg rt i.id r.1.error],
      trace := st.trace ++ r.2 }

/-- The two due lists computed by `getInterviewsNeedingReminders` on a
successful fetch (`src/app.js` lines 145-162). -/
def dueLists (env : Env) : List Interview × List Interview :=
  let cands := fetchCandidates env.db env.nowDay
  (cands.filter fun i => due24 i env.now, cands.filter fun i => due3 i env.now)

/-- `InterviewManager.getInterviewsNeedingReminders` of `src/app.js` (lines
129-178): on a store error it returns `{success: false, error}`, otherwise
the 24h and 3h due lists. -/
def getInterviewsNeedingReminders (env : Env) :
    Except String (List Interview × List Interview) :=
  match env.fetchErr with
  | some e => .error e
  | none => .ok (dueLists env)

/-- The aggregate returned by `processReminders`, together with the final
table contents and the event trace.  In the source the `errors` field is
`undefined` rather than `[]` when no error occurred; the list model keeps
`[]`. -/
structure SweepOutcome where
  success : Bool
  totalSent : Nat
  errors : List String
  error : Option String
  db : List Interview
  trace : List Ev
deriving Repr

/-- The two sequential per-pair loops of `processReminders` (`src/app.js`
lines 580-613): the 24h loop over the first fetched snapshot, then the 3h
loop over the second, starting from the initial table state with zero sent
and no errors. -/
def sweepFold (env : Env) (ls : List Interview × List Interview) : SweepState :=
  ls.2.foldl (procOne env .h3) (ls.1.foldl (procOne env .h24) ⟨env.db, 0, [], []⟩)

/-- `ReminderManager.processReminders` of `src/app.js` (lines 561-631):
fetch; on fetch failure return `{success: false, error}` (nothing dispatched
or marked); otherwise run the 24h loop then the 3h loop over the fetched
snapshots and return `{success: true, totalSent, errors}`. -/
def processReminders (env : Env) : SweepOutcome :=
  match getInterviewsNeedingReminders env with
  | .error e =>
    { success := false, totalSent := 0, errors := [], error := some e,
      db := env.db, trace := [] }
  | .ok ls =>
    { success := true, totalSent := (sweepFold env ls).totalSent,
      errors := (sweepFold env ls).errors, error := none,
      db := (sweepFold env ls).db, trace := (sweepFold env ls).trace }

/-- Whether `sendReminderMessage` resolves a recipient for the interview:
`BISHOP_LINE_USER_ID || interview.user_id` is not falsy. -/
def hasRecipient (env : Env) (i : Interview) : Bool :=
  (env.bishop <|> i.user_id).isSome

/-- All rows of the table with the given id have the bucket's flag set. -/
def Marked (db : List Interview) (n : Nat) (rt : ReminderType) : Prop :=
  ∀ j ∈ db, j.id = n → flagOf rt j = true

/-- How a table row can evolve during a sweep: identity, owner and schedule
are unchanged, and sent flags only ever go from false to true. -/
def RowRel (j0 j : Interview) : Prop :=
  j.id = j0.id ∧ j.user_id = j0.user_id ∧ j.interview_day = j0.interview_day
    ∧ j.interview_tod = j0.interview_tod
    ∧ (j0.reminder_24h_sent = true → j.reminder_24h_sent = true)
    ∧ (j0.reminder_3h_sent = true → j.reminder_3h_sent = true)

/-- Temporal property of a trace: every mark event is preceded by a dispatch
event for the same (event, bucket) pair that reported success. -/
def markPrecededByDispatch (t : List Ev) : Prop :=
  ∀ (j : Nat) (n : Nat) (rt : ReminderType) (ok : Bool),
    t[j]? = some (Ev.mark n rt ok) →
      ∃ k : Nat, k < j ∧ t[k]? = some (Ev.dispatch n rt true)

/-- The `/trigger-reminders` handler of `src/app.js` (lines 659-692), reduced
to its HTTP status: 401 when an expected API key is configured and the
provided one does not match; otherwise 200 when `processReminders` reports
success and 500 when it does not. -/
def triggerRemindersStatus (env : Env) (expectedKey providedKey : Option String) :
    Nat :=
  if expectedKey.isSome && !(providedKey == expectedKey) then 401
  else if (processReminders env).success then 200 else 500

/-- `InterviewManager.addInterview` of `src/app.js` (lines 33-73), happy
path: insert the row with both sent flags at their default `false`, then
pre-mark the 24h bucket when the interview is less than 3 hours away
(10800 s) and the 3h bucket when it is less than 1 hour away (3600 s). -/
def addInterview (nextId : Nat) (now : Int) (uid : Option String) (name : String)
    (day : Int) (tod : Int) (reason : Option String) : Interview :=
  let i0 : Interview :=
    { id := nextId, user_id := uid, interviewee_name := name,
      interview_day := day, interview_tod := tod, reason := reason,
      reminder_24h_sent := false, reminder_3h_sent := false }
  let d := diffSecs i0 now
  let i1 := if d < 10800 then { i0 with reminder_24h_sent := true } else i0
  if d < 3600 then { i1 with reminder_3h_sent := true } else i1

/-- `ReminderManager.sendReminderMessage` of `src/api/trigger-reminders.js`
(lines 101-137): the same recipient resolution
`BISHOP_LINE_USER_ID || interview.user_id`, but here a push failure is not
swallowed: the thrown transport error is caught by the function's try/catch
and reported as `{success: false, error}` (the transport's error message is
modelled by the fixed string "push failed"). -/
def sendReminderMessageApi (bishop : Option String) (pushOk : String → Bool)
    (i : ApiInterview) (rt : ReminderType) : SendResult × List Ev :=
  match bishop <|> i.user_id with
  | none => (⟨false, some "No bishop user ID configured"⟩, [Ev.dispatch i.id rt false])
  | some t =>
    if pushOk t then
      (⟨true, none⟩, [Ev.push i.id rt t true, Ev.dispatch i.id rt true])
    else
      (⟨false, some "push failed"⟩, [Ev.push i.id rt t false, Ev.dispatch i.id rt false])

/-! ## The reminder-service pipeline (`sendDueReminders`)

The second pipeline of the repository (`services/reminderService.js`, bundled
in `src/services/loggerService.js` lines 183-239) operates on a `reminders`
table; its LINE send and its mark-as-sent both throw on failure and are
caught per reminder. -/

/-- A row of the `reminders` table as consumed by `sendDueReminders`. -/
structure Reminder where
  id : Nat
  user_id : String
  message : String
deriving DecidableEq, Repr

/-- One entry of the `errorDetails` array built by `sendDueReminders`:
`{reminderId, userId, error}`. -/
structure ReminderErrorInfo where
  reminderId : Nat
  userId : String
  error : String
deriving DecidableEq, Repr

/-- The aggregate returned by `sendDueReminders`.  Fields that the source
leaves absent on the empty-fetch early return are `Option`s (`none` models a
missing field / JS `undefined`). -/
structure DueRemindersResult where
  remindersSent : Nat
  totalProcessed : Option Nat
  errors : Option Nat
  errorDetails : Option (List ReminderErrorInfo)
  success : Bool
deriving DecidableEq, Repr

/-- The error entry (if any) that processing one reminder contributes:
`sendErr r` is the message of the exception thrown by the LINE send for `r`
(none = no throw), `markErr n` likewise for the mark-as-sent update of
reminder id `n`.  The mark is only attempted when the send did not throw. -/
def reminderErrEntry (sendErr : Reminder → Option String)
    (markErr : Nat → Option String) (r : Reminder) : Option ReminderErrorInfo :=
  match sendErr r with
  | some m => some ⟨r.id, r.user_id, m⟩
  | none =>
    match markErr r.id with
    | some m => some ⟨r.id, r.user_id, m⟩
    | none => none

/-- `sendDueReminders` (`src/services/loggerService.js` lines 183-239): with
no due reminders it returns `{remindersSent: 0, success: true}` (no
`totalProcessed`, `errors` or `errorDetails` fields); otherwise it walks the
fetched list, counting successes and collecting `{reminderId, userId, error}`
entries for reminders whose send or mark threw, and returns the aggregate.
`dueStep` is one iteration of that walk (the body of the for-loop with its
try/catch): on an error the entry is appended and `errorCount` incremented,
otherwise `successCount` is incremented. -/
def dueStep (sendErr : Reminder → Option String) (markErr : Nat → Option String)
    (acc : Nat × Nat × List ReminderErrorInfo) (r : Reminder) :
    Nat × Nat × List ReminderErrorInfo :=
  match reminderErrEntry sendErr markErr r with
  | some e => (acc.1, acc.2.1 + 1, acc.2.2 ++ [e])
  | none => (acc.1 + 1, acc.2.1, acc.2.2)

def sendDueReminders (dueReminders : List Reminder)
    (sendErr : Reminder → Option String) (markErr : Nat → Option String) :
    DueRemindersResult :=
  if dueReminders.isEmpty then
    { remindersSent := 0, totalProcessed := none, errors := none,
      errorDetails := none, success := true }
  else
    let z := dueReminders.foldl (dueStep sendErr markErr) (0, 0, [])
    { remindersSent := z.1, totalProcessed := some dueReminders.length,
      errors := some z.2.1, errorDetails := some z.2.2, success := true }

/-! ## The `/add` command parser (`parseReminderCommand`)

From the reminder-service bot (`utils/messageParser.js`, `src/unnamed/part_003`
lines 6-62).  String processing is modelled directly; the JavaScript
`new Date(dateStr + 'T' + timeStr + ':00')` call is modelled by
`jsParseDateTime` following the ECMA-262 Date Time String Format (the only
format with specified behaviour): components must be two-digit (except the
four-digit year) and in range, otherwise the parse yields an invalid date.
Instants are encoded by a strictly increasing function of the calendar
tuple, which is faithful for the single comparison the code performs. -/

/-- ASCII whitespace as matched by the JS `\s` class and `trim` (the
non-ASCII members of `\s` are not modelled). -/
def jsWhitespace (c : Char) : Bool :=
  c == ' ' || c == '\t' || c == '\n' || c == '\r' || c == '\x0b' || c == '\x0c'

/-- `messageText.replace(/^\/add\s+/, '')`: remove a leading `/add` followed
by at least one whitespace character (greedily), otherwise leave the text
unchanged. -/
def stripAdd (s : String) : String :=
  match s.toList with
  | '/' :: 'a' :: 'd' :: 'd' :: c :: rest =>
    if jsWhitespace c then String.mk ((c :: rest).dropWhile jsWhitespace) else s
  | _ => s

/-- JS `String.prototype.trim`: drop whitespace from both ends. -/
def jsTrim (s : String) : String :=
  String.mk (((s.toList.dropWhile jsWhitespace).reverse.dropWhile jsWhitespace).reverse)

/-- Splitting a character list on every single space, keeping empty
pieces. -/
def splitSpAux : List Char → List Char → List String
  | [], acc => [String.mk acc.reverse]
  | c :: cs, acc =>
    if c == ' ' then String.mk acc.reverse :: splitSpAux cs []
    else splitSpAux cs (c :: acc)

/-- JS `command.split(' ')`: split on every single space, keeping empty
pieces. -/
def splitSp (s : String) : List String :=
  splitSpAux s.toList []

/-- The numeric value of a digit character. -/
def digitVal (c : Char) : Nat :=
  c.toNat - 48

/-- The date pattern `/^\d{4}-\d{2}-\d{2}$/`. -/
def dateRegexTest (s : String) : Bool :=
  match s.toList with
  | [a, b, c, d, e, f, g, h, i, j] =>
    a.isDigit && b.isDigit && c.isDigit && d.isDigit && e == '-' && f.isDigit
      && g.isDigit && h == '-' && i.isDigit && j.isDigit
  | _ => false

/-- The time pattern `/^([01]?[0-9]|2[0-3]):[0-5][0-9]$/`: hours 0-23 with
one or two digits (two-digit hours start with 0, 1 or 2), minutes 00-59. -/
def timeRegexTest (s : String) : Bool :=
  match s.toList with
  | [h, c, m1, m2] =>
    h.isDigit && c == ':' && ('0' ≤ m1 && m1 ≤ '5') && m2.isDigit
  | [h1, h2, c, m1, m2] =>
    (((h1 == '0' || h1 == '1') && h2.isDigit)
        || (h1 == '2' && ('0' ≤ h2 && h2 ≤ '3')))
      && c == ':' && ('0' ≤ m1 && m1 ≤ '5') && m2.isDigit
  | _ => false

/-- Gregorian leap years. -/
def isLeapYear (y : Nat) : Bool :=
  (y % 4 == 0 && y % 100 != 0) || y % 400 == 0

/-- Days in a month of the Gregorian calendar. -/
def daysInMonth (y m : Nat) : Nat :=
  if m == 2 then (if isLeapYear y then 29 else 28)
  else if m == 4 || m == 6 || m == 9 || m == 11 then 30
  else 31

/-- `new Date(dateStr + 'T' + timeStr + ':00')` for the strings reaching it
in `parseReminderCommand`, per the ECMA-262 Date Time String Format:
`YYYY-MM-DD'T'HH:mm:ss` with two-digit month, day, hour and minute, month
1-12, day within the month, hour 0-23, minute 0-59; anything else is an invalid
date (`none`).  A valid instant is encoded order-faithfully as
`((((y * 12 + (m-1)) * 31 + (d-1)) * 24 + h) * 60 + min`. -/
def jsParseDateTime (dateStr timeStr : String) : Option Nat :=
  match dateStr.toList, timeStr.toList with
  | [y1, y2, y3, y4, s1, mo1, mo2, s2, d1, d2], [h1, h2, c, mi1, mi2] =>
    if y1.isDigit && y2.isDigit && y3.isDigit && y4.isDigit && s1 == '-'
        && mo1.isDigit && mo2.isDigit && s2 == '-' && d1.isDigit && d2.isDigit
        && h1.isDigit && h2.isDigit && c == ':' && mi1.isDigit && mi2.isDigit then
      let y := ((digitVal y1 * 10 + digitVal y2) * 10 + digitVal y3) * 10 + digitVal y4
      let mo := digitVal mo1 * 10 + digitVal mo2
      let d := digitVal d1 * 10 + digitVal d2
      let h := digitVal h1 * 10 + digitVal h2
      let mi := digitVal mi1 * 10 + digitVal mi2
      if 1 ≤ mo && mo ≤ 12 && 1 ≤ d && d ≤ daysInMonth y mo && h ≤ 23 && mi ≤ 59 then
        some ((((y * 12 + (mo - 1)) * 31 + (d - 1)) * 24 + h) * 60 + mi)
      else none
    else none
  | _, _ => none

/-- The parsed result `{date, time, message, reminderTime}`. -/
structure ParsedReminder where
  date : String
  time : String
  message : String
  reminderTime : Nat
deriving DecidableEq, Repr

/-- `parseReminderCommand` (`src/unnamed/part_003` lines 6-62): strip the
`/add` prefix and trim; reject an empty command; split on spaces and reject
fewer than three parts; test the date and time patterns; build the instant
(`new Date`); reject a non-future or invalid instant (`reminderTime <= now`
is false for an invalid date in JS, so the subsequent `isNaN` check catches
it — the net effect is rejection, as modelled).  The surrounding try/catch
returns null instead of throwing; the model is total. -/
def parseReminderCommand (now : Nat) (messageText : String) : Option ParsedReminder :=
  let command := jsTrim (stripAdd messageText)
  if command == "" then none
  else
    match splitSp command with
    | dateStr :: timeStr :: restParts =>
      if restParts.isEmpty then none
      else if !dateRegexTest dateStr then none
      else if !timeRegexTest timeStr then none
      else
        match jsParseDateTime dateStr timeStr with
        | none => none
        | some t =>
          if t ≤ now then none
          else some ⟨dateStr, timeStr, String.intercalate " " restParts, t⟩
    | _ => none

/-- Modelled from the claim's words (C10): the input, after stripping the
leading `/add` prefix, splits into at least three space-separated parts whose
first part matches the date pattern `YYYY-MM-DD`, whose second part matches a
valid 24-hour `HH:MM` time, and whose combined date-time instant is strictly
later than the current time. -/
def claimedParseAccepts (now : Nat) (messageText : String) : Prop :=
  let parts := splitSp (jsTrim (stripAdd messageText))
  3 ≤ parts.length ∧ dateRegexTest (parts.headD "") = true
    ∧ timeRegexTest ((parts.drop 1).headD "") = true
    ∧ ∃ t, jsParseDateTime (parts.headD "") ((parts.drop 1).headD "") = some t ∧ now < t

/-! ## Theorems -/

/-- Scaling helper: a rational lower bound on the fractional-hour difference
is the corresponding integer second bound. -/
lemma hoursLB (c : Int) (a : ℚ) (h : a * 3600 = (c : ℚ)) (d : Int) :
    a ≤ (d : ℚ) / 3600 ↔ c ≤ d := by
  rw [le_div_iff₀ (by norm_num : (0 : ℚ) < 3600), h]
  exact_mod_cast Iff.rfl

/-- Scaling helper: a rational upper bound on the fractional-hour difference
is the corresponding integer second bound. -/
lemma hoursUB (c : Int) (a : ℚ) (h : a * 3600 = (c : ℚ)) (d : Int) :
    (d : ℚ) / 3600 ≤ a ↔ d ≤ c := by
  rw [div_le_iff₀ (by norm_num : (0 : ℚ) < 3600), h]
  exact_mod_cast Iff.rfl

/-- C1 (amended): in the `src/app.js` sweep the Due-Window Evaluator marks a
bucket due iff its sent flag is false and the fractional-hour difference lies
in the closed interval `[23.5, 24.5]` (24h bucket) / `[2.5, 3.5]` (3h
bucket); but the serverless sweep of `src/api/trigger-reminders.js` is not
this window: its 24h time filter keeps exactly the candidates whose
difference lies in `[20, 28]` hours. -/
theorem dueWindow_correct (i : Interview) (now : Int) :
    (due24 i now = true ↔
      i.reminder_24h_sent = false ∧
        (47 : ℚ)/2 ≤ (diffSecs i now : ℚ)/3600 ∧ (diffSecs i now : ℚ)/3600 ≤ (49 : ℚ)/2) ∧
    (due3 i now = true ↔
      i.reminder_3h_sent = false ∧
        (5 : ℚ)/2 ≤ (diffSecs i now : ℚ)/3600 ∧ (diffSecs i now : ℚ)/3600 ≤ (7 : ℚ)/2) ∧
    (∀ (l : List ApiInterview) (a : ApiInterview),
      a ∈ apiFilter24 l now ↔
        a ∈ l ∧ (20 : ℚ) ≤ ((a.target - now : Int) : ℚ)/3600
          ∧ ((a.target - now : Int) : ℚ)/3600 ≤ (28 : ℚ)) := by
  refine ⟨?_, ?_, ?_⟩
  · rw [hoursLB 84600 ((47 : ℚ)/2) (by norm_num), hoursUB 88200 ((49 : ℚ)/2) (by norm_num)]
    simp [due24, Bool.and_eq_true, decide_eq_true_eq, Bool.not_eq_true', and_assoc]
  · rw [hoursLB 9000 ((5 : ℚ)/2) (by norm_num), hoursUB 12600 ((7 : ℚ)/2) (by norm_num)]
    simp [due3, Bool.and_eq_true, decide_eq_true_eq, Bool.not_eq_true', and_assoc]
  · intro l a
    rw [hoursLB 72000 (20 : ℚ) (by norm_num), hoursUB 100800 (28 : ℚ) (by norm_num)]
    simp [apiFilter24, List.mem_filter, Bool.and_eq_true, decide_eq_true_eq, and_assoc]

/-- Concrete row for the C1 counterexample: an interview 21 hours away. -/
def cexApiRow : ApiInterview :=
  ⟨7, some "U", "N", 1, 32400, none, none, none⟩

/-- C1 (counterexample): at reference instant 12:00 of day 0, the serverless
sweep of `src/api/trigger-reminders.js` classifies as due for the 24h bucket
an unsent interview whose target is 21 fractional hours away — outside the
claimed closed interval `[23.5, 24.5]` — so the claimed window does not hold
in every implementation of the sweep in the repository. -/
theorem dueWindow_cex :
    apiFilter24 (apiFetch24 [cexApiRow] 0) 43200 = [cexApiRow] ∧
    ¬((47 : ℚ)/2 ≤ ((cexApiRow.target - 43200 : Int) : ℚ)/3600 ∧
      ((cexApiRow.target - 43200 : Int) : ℚ)/3600 ≤ (49 : ℚ)/2) := by
  constructor
  · decide
  · intro h
    have h1 := h.1
    rw [show ((cexApiRow.target - 43200 : Int) : ℚ) = 75600 by norm_num [cexApiRow, ApiInterview.target]] at h1
    norm_num at h1

/-- C7 (amended): the creation path `addInterview` pre-marks the 24h bucket
iff the interview is created less than 3 hours before its target, and the 3h
bucket iff less than 1 hour before — not at the 23.5 h / 2.5 h thresholds of
the claim; and whenever both flags are pre-marked (in particular for an
event created 30 minutes before its target, since 0.5 h is below both
thresholds) no sweep at any reference instant finds a due bucket for it. -/
theorem addInterview_premarks (nextId : Nat) (now : Int) (uid : Option String)
    (name : String) (day tod : Int) (reason : Option String) :
    ((addInterview nextId now uid name day tod reason).reminder_24h_sent = true ↔
      86400 * day + tod - now < 10800) ∧
    ((addInterview nextId now uid name day tod reason).reminder_3h_sent = true ↔
      86400 * day + tod - now < 3600) ∧
    (86400 * day + tod - now < 3600 →
      ∀ t : Int, due24 (addInterview nextId now uid name day tod reason) t = false ∧
        due3 (addInterview nextId now uid name day tod reason) t = false) := by
  unfold addInterview
  simp only [diffSecs, Interview.target]
  by_cases h1 : 86400 * day + tod - now < 10800
  · by_cases h2 : 86400 * day + tod - now < 3600
    · simp [h1, h2, due24, due3]
    · simp [h1, h2]
  · have h2 : ¬(86400 * day + tod - now < 3600) := by omega
    simp [h1, h2]

/-- C7 (counterexample): an interview created 2 hours before its target
(less than the 3h bucket's nominal lead minus tolerance, 2.5 h) does NOT get
its 3h bucket pre-marked by the creation path; likewise one created 10 hours
before its target does not get its 24h bucket pre-marked, although 10 h is
below 23.5 h. -/
theorem addInterview_cex :
    (addInterview 1 0 (some "U") "N" 0 7200 none).reminder_3h_sent = false ∧
    ((7200 : Int) : ℚ)/3600 < (5 : ℚ)/2 ∧
    (addInterview 2 0 (some "U") "N" 0 36000 none).reminder_24h_sent = false ∧
    ((36000 : Int) : ℚ)/3600 < (47 : ℚ)/2 := by
  refine ⟨by decide, by norm_num, by decide, by norm_num⟩

/-- C7 (witness): an event created 30 minutes (1800 s) before its target has
both buckets pre-marked, and an immediate sweep evaluation finds no due
bucket for it. -/
theorem addInterview_premarks_witness :
    due24 (addInterview 3 0 (some "U") "N" 0 1800 none) 0 = false ∧
    due3 (addInterview 3 0 (some "U") "N" 0 1800 none) 0 = false :=
  (addInterview_premarks 3 0 (some "U") "N" 0 1800 none).2.2 (by norm_num) 0

/-- C6: dispatch targets the configured fixed recipient whenever present
(regardless of the event's owner), falls back to the owner id when absent,
and with neither reports a `{success: false, error: 'No bishop user ID
configured'}` outcome (no exception escapes) — in both implementations of
`sendReminderMessage`. -/
theorem recipient_resolution (env : Env) (i : Interview) (rt : ReminderType)
    (bishop : Option String) (pOk : String → Bool) (a : ApiInterview)
    (rt' : ReminderType) :
    (∀ b, env.bishop = some b →
      sendReminderMessageApp env i rt
        = (⟨true, none⟩, [Ev.push i.id rt b (env.pushOk b), Ev.dispatch i.id rt true])) ∧
    (env.bishop = none → ∀ u, i.user_id = some u →
      sendReminderMessageApp env i rt
        = (⟨true, none⟩, [Ev.push i.id rt u (env.pushOk u), Ev.dispatch i.id rt true])) ∧
    (env.bishop = none → i.user_id = none →
      sendReminderMessageApp env i rt
        = (⟨false, some "No bishop user ID configured"⟩, [Ev.dispatch i.id rt false])) ∧
    (∀ b, bishop = some b →
      (sendReminderMessageApi bishop pOk a rt').2.head?
        = some (Ev.push a.id rt' b (pOk b))) ∧
    (bishop = none → ∀ u, a.user_id = some u →
      (sendReminderMessageApi bishop pOk a rt').2.head?
        = some (Ev.push a.id rt' u (pOk u))) ∧
    (bishop = none → a.user_id = none →
      sendReminderMessageApi bishop pOk a rt'
        = (⟨false, some "No bishop user ID configured"⟩, [Ev.dispatch a.id rt' false])) := by
  refine ⟨?_, ?_, ?_, ?_, ?_, ?_⟩
  · intro b hb
    simp [sendReminderMessageApp, hb, Option.orElse]
  · intro hb u hu
    simp [sendReminderMessageApp, hb, hu, Option.orElse]
  · intro hb hu
    simp [sendReminderMessageApp, hb, hu, Option.orElse]
  · intro b hb
    by_cases hp : pOk b <;> simp [sendReminderMessageApi, hb, hp, Option.orElse]
  · intro hb u hu
    by_cases hp : pOk u <;> simp [sendReminderMessageApi, hb, hu, hp, Option.orElse]
  · intro hb hu
    simp [sendReminderMessageApi, hb, hu, Option.orElse]

/-- Concrete environment for the C6 witness: fixed recipient "BISHOP"
configured, event owned by "OWNER". -/
def envRecipient : Env :=
  { db := [], nowDay := 0, nowTod := 0, bishop := some "BISHOP",
    pushOk := fun _ => true, markOk := fun _ _ => true, fetchErr := none }

/-- C6 (witness): with the fixed recipient configured, an event owned by a
different user is dispatched to the fixed recipient. -/
theorem recipient_resolution_witness :
    sendReminderMessageApp envRecipient ⟨9, some "OWNER", "N", 1, 0, none, false, false⟩ .h24
      = (⟨true, none⟩, [Ev.push 9 .h24 "BISHOP" true, Ev.dispatch 9 .h24 true]) :=
  (recipient_resolution envRecipient ⟨9, some "OWNER", "N", 1, 0, none, false, false⟩
    .h24 none (fun _ => true) ⟨9, none, "N", 1, 0, none, none, none⟩ .h3).1 "BISHOP" rfl

/-- C5: when the candidate fetch fails the sweep fails closed — it returns
`{success: false, error}` with an empty aggregate, the table untouched and
no dispatch or mark performed — and, provided the API-key gate passes, the
HTTP trigger answers 500 exactly when the fetch failed; per-pair dispatch or
mark failures leave `success = true` and the endpoint answers 200. -/
theorem fetch_failure_behavior (env : Env) (ek pk : Option String)
    (hauth : (ek.isSome && !(pk == ek)) = false) :
    (triggerRemindersStatus env ek pk = 500 ↔ env.fetchErr ≠ none) ∧
    (∀ e, env.fetchErr = some e →
      processReminders env
        = { success := false, totalSent := 0, errors := [], error := some e,
            db := env.db, trace := [] }) := by
  constructor
  · cases hf : env.fetchErr with
    | none =>
      simp only [triggerRemindersStatus, hauth, Bool.false_eq_true, if_false,
        processReminders, getInterviewsNeedingReminders, hf]
      simp
    | some e =>
      simp only [triggerRemindersStatus, hauth, Bool.false_eq_true, if_false,
        processReminders, getInterviewsNeedingReminders, hf]
      simp
  · intro e hf
    simp [processReminders, getInterviewsNeedingReminders, hf]

/-- Concrete environment for the C5 witness: the candidate query fails. -/
def envFetchFail : Env :=
  { db := [⟨1, some "U", "N", 1, 0, none, false, false⟩], nowDay := 0,
    nowTod := 0, bishop := some "B", pushOk := fun _ => true,
    markOk := fun _ _ => true, fetchErr := some "store unreachable" }

/-- C5 (witness): with no API key configured and a failing fetch, the trigger
endpoint answers 500. -/
theorem fetch_failure_behavior_witness :
    triggerRemindersStatus envFetchFail none none = 500 :=
  (fetch_failure_behavior envFetchFail none none rfl).1.mpr (by simp [envFetchFail])

/-- Decomposition of the 24h due test. -/
lemma due24_iff (i : Interview) (now : Int) :
    due24 i now = true ↔
      i.reminder_24h_sent = false ∧ 84600 ≤ diffSecs i now ∧ diffSecs i now ≤ 88200 := by
  simp [due24, Bool.and_eq_true, decide_eq_true_eq, Bool.not_eq_true', and_assoc]

/-- Decomposition of the 3h due test. -/
lemma due3_iff (i : Interview) (now : Int) :
    due3 i now = true ↔
      i.reminder_3h_sent = false ∧ 9000 ≤ diffSecs i now ∧ diffSecs i now ≤ 12600 := by
  simp [due3, Bool.and_eq_true, decide_eq_true_eq, Bool.not_eq_true', and_assoc]

/-- Membership in the candidate fetch. -/
lemma mem_fetchCandidates (db : List Interview) (nowDay : Int) (i : Interview) :
    i ∈ fetchCandidates db nowDay ↔
      i ∈ db ∧ (i.reminder_24h_sent = false ∨ i.reminder_3h_sent = false)
        ∧ nowDay ≤ i.interview_day := by
  simp [fetchCandidates, List.mem_filter, Bool.and_eq_true, Bool.or_eq_true,
    decide_eq_true_eq, Bool.not_eq_true', and_assoc]

/-- `processReminders` on a successful fetch is the outcome of the two
loops. -/
lemma processReminders_ok (env : Env) (hf : env.fetchErr = none) :
    processReminders env
      = { success := true, totalSent := (sweepFold env (dueLists env)).totalSent,
          errors := (sweepFold env (dueLists env)).errors, error := none,
          db := (sweepFold env (dueLists env)).db,
          trace := (sweepFold env (dueLists env)).trace } := by
  simp [processReminders, getInterviewsNeedingReminders, hf]

/-- `procOne` when no recipient resolves: an error entry is appended, the
table, counter and (apart from the failed-dispatch event) trace are kept. -/
lemma procOne_none (env : Env) (rt : ReminderType) (st : SweepState) (i : Interview)
    (h : (env.bishop <|> i.user_id) = none) :
    procOne env rt st i
      = { db := st.db, totalSent := st.totalSent,
          errors := st.errors ++ [pairErrMsg rt i.id (some "No bishop user ID configured")],
          trace := st.trace ++ [Ev.dispatch i.id rt false] } := by
  simp [procOne, sendReminderMessageApp, h]

/-- `procOne` when a recipient resolves: the pair is counted as sent and the
mark is attempted (its reported result ignored), whatever the transport
outcome. -/
lemma procOne_some (env : Env) (rt : ReminderType) (st : SweepState) (i : Interview)
    (t : String) (h : (env.bishop <|> i.user_id) = some t) :
    procOne env rt st i
      = { db := (markReminderSent env.markOk st.db i.id rt).1,
          totalSent := st.totalSent + 1, errors := st.errors,
          trace := st.trace ++ [Ev.push i.id rt t (env.pushOk t),
            Ev.dispatch i.id rt true,
            Ev.mark i.id rt (markReminderSent env.markOk st.db i.id rt).2] } := by
  simp [procOne, sendReminderMessageApp, h]

/-- The per-pair loop counts exactly the pairs for which a recipient
resolves. -/
lemma foldl_totalSent (env : Env) (rt : ReminderType) :
    ∀ (l : List Interview) (st : SweepState),
      (l.foldl (procOne env rt) st).totalSent
        = st.totalSent + l.countP (hasRecipient env) := by
  intro l
  induction l with
  | nil => intro st; simp
  | cons a l ih =>
    intro st
    rw [List.foldl_cons, ih, List.countP_cons]
    cases h : (env.bishop <|> a.user_id) with
    | none =>
      rw [procOne_none env rt st a h]
      simp [hasRecipient, h]
    | some t =>
      rw [procOne_some env rt st a t h]
      simp [hasRecipient, h]
      omega

/-- The per-pair loop records exactly one error entry per pair with no
recipient. -/
lemma foldl_errors (env : Env) (rt : ReminderType) :
    ∀ (l : List Interview) (st : SweepState),
      (l.foldl (procOne env rt) st).errors
        = st.errors ++ (l.filter fun i => !hasRecipient env i).map
            (fun i => pairErrMsg rt i.id (some "No bishop user ID configured")) := by
  intro l
  induction l with
  | nil => intro st; simp
  | cons a l ih =>
    intro st
    rw [List.foldl_cons, ih, List.filter_cons]
    cases h : (env.bishop <|> a.user_id) with
    | none =>
      rw [procOne_none env rt st a h]
      simp [hasRecipient, h]
    | some t =>
      rw [procOne_some env rt st a t h]
      simp [hasRecipient, h]

/-- Counting a predicate and its negation partitions a list. -/
lemma countP_split {α : Type} (p : α → Bool) (l : List α) :
    l.countP p + l.countP (fun a => !p a) = l.length := by
  induction l with
  | nil => simp
  | cons a l ih =>
    rw [List.countP_cons, List.countP_cons]
    cases h : p a <;> simp [h] <;> omega

/-- C4 (amended): with a successful fetch, every (event, bucket) pair of the
worklist is attempted and has its outcome reported — `totalSent` plus the
number of error entries equals the worklist size, and nothing is thrown past
the Orchestrator (the sweep is a total function returning a result object).
Each pair whose dispatch fails is recorded as a per-pair error entry; a pair
whose mark fails, however, is counted as sent and is NOT recorded. -/
theorem failure_isolation (env : Env) (hf : env.fetchErr = none) :
    (processReminders env).totalSent + (processReminders env).errors.length
      = (dueLists env).1.length + (dueLists env).2.length ∧
    (processReminders env).errors
      = ((dueLists env).1.filter fun i => !hasRecipient env i).map
          (fun i => pairErrMsg .h24 i.id (some "No bishop user ID configured"))
        ++ ((dueLists env).2.filter fun i => !hasRecipient env i).map
          (fun i => pairErrMsg .h3 i.id (some "No bishop user ID configured")) := by
  rw [processReminders_ok env hf]
  unfold sweepFold
  rw [foldl_totalSent, foldl_totalSent, foldl_errors, foldl_errors]
  constructor
  · simp only [List.length_append, List.length_map, List.nil_append,
      List.length_nil, ← List.countP_eq_length_filter]
    have h1 := countP_split (hasRecipient env) (dueLists env).1
    have h2 := countP_split (hasRecipient env) (dueLists env).2
    omega
  · simp

/-- Concrete environment for the C4 counterexample: one due pair whose
dispatch succeeds and whose mark fails. -/
def envIsoCex : Env :=
  { db := [⟨4, some "U", "N", 1, 0, none, false, false⟩], nowDay := 0,
    nowTod := 0, bishop := some "B", pushOk := fun _ => true,
    markOk := fun _ _ => false, fetchErr := none }

/-- C4 (counterexample): the pair (interview 4, 24h) fails its mark step —
the flag update does not happen, so the table is unchanged — yet the sweep's
result records no per-pair error entry for it, contradicting the claim that
each failing pair is recorded. -/
theorem failure_isolation_cex :
    Ev.mark 4 .h24 false ∈ (processReminders envIsoCex).trace ∧
    (processReminders envIsoCex).db = envIsoCex.db ∧
    (processReminders envIsoCex).errors = [] := by decide

/-- Concrete environment for the C4 witness: two due pairs, one with a
resolvable recipient and one without (dispatch failure). -/
def envIsoWitness : Env :=
  { db := [⟨2, some "U", "N", 1, 0, none, false, false⟩,
           ⟨3, none, "P", 1, 0, none, false, false⟩],
    nowDay := 0, nowTod := 0, bishop := none, pushOk := fun _ => true,
    markOk := fun _ _ => true, fetchErr := none }

/-- C4 (witness): on a two-pair worklist where one dispatch fails, both
pairs are attempted and reported. -/
theorem failure_isolation_witness :
    envIsoWitness.fetchErr = none ∧
    (processReminders envIsoWitness).totalSent
        + (processReminders envIsoWitness).errors.length
      = (dueLists envIsoWitness).1.length + (dueLists envIsoWitness).2.length :=
  ⟨rfl, (failure_isolation envIsoWitness rfl).1⟩

/-- C8 (amended): a mark failure is non-fatal — the sweep continues and its
counters are exactly those determined by recipient resolution, independently
of the mark outcomes: `totalSent` counts every pair whose dispatch reported
success (including pairs whose subsequent mark failed), and the error list
has exactly one entry per dispatch-failed pair, so a mark failure is NOT
recorded in the sweep's result, distinctly or otherwise. -/
theorem mark_failure_nonfatal (env : Env) (hf : env.fetchErr = none) :
    (processReminders env).totalSent
      = (dueLists env).1.countP (hasRecipient env)
        + (dueLists env).2.countP (hasRecipient env) ∧
    (processReminders env).errors.length
      = (dueLists env).1.countP (fun i => !hasRecipient env i)
        + (dueLists env).2.countP (fun i => !hasRecipient env i) := by
  rw [processReminders_ok env hf]
  unfold sweepFold
  rw [foldl_totalSent, foldl_totalSent, foldl_errors, foldl_errors]
  constructor
  · simp
  · simp [List.countP_eq_length_filter]

/-- Concrete environment for the C8 counterexample: one due 3h pair whose
dispatch succeeds and whose mark fails. -/
def envMarkCex : Env :=
  { db := [⟨8, some "V", "M", 0, 10800, none, false, false⟩], nowDay := 0,
    nowTod := 0, bishop := some "B8", pushOk := fun _ => true,
    markOk := fun _ _ => false, fetchErr := none }

/-- C8 (counterexample): dispatch for (interview 8, 3h) succeeds, its mark
fails, the sweep counts the pair as sent and its result contains no error
entry at all — the mark failure is not recorded, let alone distinctly from a
dispatch failure. -/
theorem mark_failure_cex :
    Ev.mark 8 .h3 false ∈ (processReminders envMarkCex).trace ∧
    (processReminders envMarkCex).totalSent = 1 ∧
    (processReminders envMarkCex).errors = [] := by decide

/-- Concrete environment for the C8 witness: one due pair with recipient. -/
def envMarkWitness : Env :=
  { db := [⟨5, some "W", "Q", 1, 0, none, false, false⟩], nowDay := 0,
    nowTod := 0, bishop := some "B5", pushOk := fun _ => true,
    markOk := fun _ _ => false, fetchErr := none }

/-- C8 (witness): the counter formulas at a concrete environment whose mark
step always fails. -/
theorem mark_failure_nonfatal_witness :
    envMarkWitness.fetchErr = none ∧
    (processReminders envMarkWitness).totalSent
      = (dueLists envMarkWitness).1.countP (hasRecipient envMarkWitness)
        + (dueLists envMarkWitness).2.countP (hasRecipient envMarkWitness) :=
  ⟨rfl, (mark_failure_nonfatal envMarkWitness rfl).1⟩

/-- Appending a block whose marks are internally preceded by a matching
successful dispatch preserves `markPrecededByDispatch`. -/
lemma mpd_append (xs ys : List Ev) (hx : markPrecededByDispatch xs)
    (hy : ∀ (j : Nat) (n : Nat) (rt : ReminderType) (ok : Bool),
      ys[j]? = some (Ev.mark n rt ok) →
        ∃ k : Nat, k < j ∧ ys[k]? = some (Ev.dispatch n rt true)) :
    markPrecededByDispatch (xs ++ ys) := by
  intro j n rt ok hj
  by_cases hlt : j < xs.length
  · rw [List.getElem?_append_left hlt] at hj
    obtain ⟨k, hk, hk2⟩ := hx j n rt ok hj
    exact ⟨k, hk, by rw [List.getElem?_append_left (lt_trans hk hlt)]; exact hk2⟩
  · push_neg at hlt
    rw [List.getElem?_append_right hlt] at hj
    obtain ⟨k, hk, hk2⟩ := hy _ n rt ok hj
    refine ⟨xs.length + k, by omega, ?_⟩
    rw [List.getElem?_append_right (by omega)]
    simpa using hk2

/-- The failed-dispatch block contains no mark event. -/
lemma block_none_mpd (m : Nat) (rt' : ReminderType) :
    ∀ (j : Nat) (n : Nat) (rt : ReminderType) (ok : Bool),
      ([Ev.dispatch m rt' false])[j]? = some (Ev.mark n rt ok) →
        ∃ k : Nat, k < j ∧ ([Ev.dispatch m rt' false])[k]? = some (Ev.dispatch n rt true) := by
  intro j n rt ok h
  match j with
  | 0 => simp at h
  | j + 1 => simp at h

/-- In the successful-dispatch block, the single mark event is preceded by
the matching successful dispatch. -/
lemma block_some_mpd (m : Nat) (rt' : ReminderType) (t : String) (d okv : Bool) :
    ∀ (j : Nat) (n : Nat) (rt : ReminderType) (ok : Bool),
      ([Ev.push m rt' t d, Ev.dispatch m rt' true, Ev.mark m rt' okv])[j]?
          = some (Ev.mark n rt ok) →
        ∃ k : Nat, k < j ∧
          ([Ev.push m rt' t d, Ev.dispatch m rt' true, Ev.mark m rt' okv])[k]?
            = some (Ev.dispatch n rt true) := by
  intro j n rt ok h
  match j with
  | 0 => simp at h
  | 1 => simp at h
  | 2 =>
    simp only [List.getElem?_cons_succ, List.getElem?_cons_zero, Option.some.injEq,
      Ev.mark.injEq] at h
    obtain ⟨h1, h2, _⟩ := h
    exact ⟨1, by omega, by simp [h1, h2]⟩
  | j + 3 => simp at h

/-- The per-pair loop preserves `markPrecededByDispatch` of the trace. -/
lemma mpd_fold (env : Env) (rt : ReminderType) :
    ∀ (l : List Interview) (st : SweepState),
      markPrecededByDispatch st.trace →
        markPrecededByDispatch ((l.foldl (procOne env rt) st).trace) := by
  intro l
  induction l with
  | nil => intro st h; exact h
  | cons a l ih =>
    intro st h
    rw [List.foldl_cons]
    apply ih
    cases henv : (env.bishop <|> a.user_id) with
    | none =>
      rw [procOne_none env rt st a henv]
      exact mpd_append _ _ h (block_none_mpd a.id rt)
    | some t =>
      rw [procOne_some env rt st a t henv]
      exact mpd_append _ _ h
        (block_some_mpd a.id rt t (env.pushOk t)
          (markReminderSent env.markOk st.db a.id rt).2)

/-- C3 (amended): in every sweep trace, `markReminderSent` for a pair is
invoked only after that pair's dispatch has completed and reported success —
but reported success does not mean the transport confirmed delivery: in
`src/app.js` the `pushMessage` rejection is swallowed by `.catch`, so a pair
whose transport send failed still reports success and is marked. -/
theorem mark_after_dispatch (env : Env) :
    markPrecededByDispatch (processReminders env).trace := by
  cases hf : env.fetchErr with
  | some e =>
    intro j n rt ok h
    simp [processReminders, getInterviewsNeedingReminders, hf] at h
  | none =>
    rw [processReminders_ok env hf]
    unfold sweepFold
    apply mpd_fold
    apply mpd_fold
    intro j n rt ok h
    simp at h

/-- Concrete environment for the C3 counterexample: the transport rejects
every push. -/
def envPushFailCex : Env :=
  { db := [⟨6, some "U", "N", 1, 0, none, false, false⟩], nowDay := 0,
    nowTod := 0, bishop := some "B6", pushOk := fun _ => false,
    markOk := fun _ _ => true, fetchErr := none }

/-- C3 (counterexample): the transport send for (interview 6, 24h) fails
(the push event carries `delivered = false`), yet the dispatch reports
success and the bucket is marked sent — so the system does mark a bucket for
a dispatch whose transport send actually failed. -/
theorem mark_after_dispatch_cex :
    (processReminders envPushFailCex).trace
      = [Ev.push 6 .h24 "B6" false, Ev.dispatch 6 .h24 true, Ev.mark 6 .h24 true] ∧
    (processReminders envPushFailCex).db
      = [⟨6, some "U", "N", 1, 0, none, true, false⟩] := by decide

/-- `setFlag` keeps the row id. -/
lemma setFlag_id (rt : ReminderType) (j : Interview) : (setFlag rt j).id = j.id := by
  cases rt <;> simp [setFlag]

/-- `setFlag` never clears a flag. -/
lemma flagOf_setFlag_mono (rt rt' : ReminderType) (j : Interview)
    (h : flagOf rt j = true) : flagOf rt (setFlag rt' j) = true := by
  cases rt <;> cases rt' <;> simp_all [flagOf, setFlag]

/-- The flag set by `setFlag` is set. -/
lemma flagOf_setFlag_self (rt : ReminderType) (j : Interview) :
    flagOf rt (setFlag rt j) = true := by
  cases rt <;> simp [flagOf, setFlag]

/-- One loop iteration preserves `Marked`. -/
lemma Marked_procOne (env : Env) (rt' : ReminderType) (st : SweepState)
    (i : Interview) (n : Nat) (rt : ReminderType) (h : Marked st.db n rt) :
    Marked (procOne env rt' st i).db n rt := by
  cases henv : (env.bishop <|> i.user_id) with
  | none => rw [procOne_none env rt' st i henv]; exact h
  | some t =>
    rw [procOne_some env rt' st i t henv]
    intro j hj hid
    unfold markReminderSent at hj
    by_cases hmk : env.markOk i.id rt'
    · simp only [hmk, if_true, List.mem_map] at hj
      obtain ⟨x, hx, hjeq⟩ := hj
      by_cases hxid : x.id = i.id
      · rw [← hjeq]
        simp only [hxid, if_true]
        rw [← hjeq] at hid
        simp only [hxid, if_true] at hid
        rw [setFlag_id] at hid
        exact flagOf_setFlag_mono rt rt' x (h x hx hid)
      · rw [← hjeq] at hid ⊢
        simp only [hxid, if_false] at hid ⊢
        exact h x hx hid
    · simp only [hmk, if_false] at hj
      exact h j hj hid

/-- The per-pair loop preserves `Marked`. -/
lemma Marked_fold (env : Env) (rt' : ReminderType) (n : Nat) (rt : ReminderType) :
    ∀ (l : List Interview) (st : SweepState), Marked st.db n rt →
      Marked ((l.foldl (procOne env rt') st).db) n rt := by
  intro l
  induction l with
  | nil => intro st h; exact h
  | cons a l ih =>
    intro st h
    rw [List.foldl_cons]
    exact ih _ (Marked_procOne env rt' st a n rt h)

/-- A successfully dispatched pair whose mark succeeds leaves the table
`Marked` for its id and bucket. -/
lemma Marked_establish (env : Env) (rt : ReminderType) (st : SweepState)
    (i : Interview) (hmk : env.markOk i.id rt = true) (t : String)
    (henv : (env.bishop <|> i.user_id) = some t) :
    Marked (procOne env rt st i).db i.id rt := by
  rw [procOne_some env rt st i t henv]
  intro j hj hid
  unfold markReminderSent at hj
  simp only [hmk, if_true, List.mem_map] at hj
  obtain ⟨x, hx, hjeq⟩ := hj
  by_cases hxid : x.id = i.id
  · rw [← hjeq]
    simp only [hxid, if_true]
    exact flagOf_setFlag_self rt x
  · rw [← hjeq] at hid
    simp only [hxid, if_false] at hid

/-- With a reliable store, every pair of the worklist that resolves a
recipient is `Marked` after the loop. -/
lemma Marked_in_fold (env : Env) (rt : ReminderType)
    (hm : ∀ (k : Nat) (r : ReminderType), env.markOk k r = true) :
    ∀ (l : List Interview) (st : SweepState) (i : Interview),
      i ∈ l → hasRecipient env i = true →
        Marked ((l.foldl (procOne env rt) st).db) i.id rt := by
  intro l
  induction l with
  | nil => intro st i h; simp at h
  | cons a l ih =>
    intro st i hmem hr
    rw [List.foldl_cons]
    rcases List.mem_cons.mp hmem with heq | hmem'
    · subst heq
      apply Marked_fold
      cases henv : (env.bishop <|> i.user_id) with
      | none => rw [hasRecipient, henv] at hr; simp at hr
      | some t => exact Marked_establish env rt st i (hm i.id rt) t henv
    · exact ih _ i hmem' hr

/-- `RowRel` is reflexive. -/
lemma rowRel_refl (j : Interview) : RowRel j j := by
  simp [RowRel]

/-- `RowRel` absorbs a further `setFlag`. -/
lemma rowRel_setFlag (rt : ReminderType) {j0 j : Interview} (h : RowRel j0 j) :
    RowRel j0 (setFlag rt j) := by
  obtain ⟨h1, h2, h3, h4, h5, h6⟩ := h
  cases rt with
  | h24 => exact ⟨h1, h2, h3, h4, fun _ => rfl, h6⟩
  | h3 => exact ⟨h1, h2, h3, h4, h5, fun _ => rfl⟩

/-- One loop iteration only evolves rows along `RowRel`. -/
lemma rel_procOne (env : Env) (rt' : ReminderType) (st : SweepState)
    (i : Interview) (D : List Interview)
    (inv : ∀ j ∈ st.db, ∃ j0 ∈ D, RowRel j0 j) :
    ∀ j ∈ (procOne env rt' st i).db, ∃ j0 ∈ D, RowRel j0 j := by
  cases henv : (env.bishop <|> i.user_id) with
  | none => rw [procOne_none env rt' st i henv]; exact inv
  | some t =>
    rw [procOne_some env rt' st i t henv]
    intro j hj
    unfold markReminderSent at hj
    by_cases hmk : env.markOk i.id rt'
    · simp only [hmk, if_true, List.mem_map] at hj
      obtain ⟨x, hx, hjeq⟩ := hj
      obtain ⟨j0, hj0, hrel⟩ := inv x hx
      refine ⟨j0, hj0, ?_⟩
      by_cases hxid : x.id = i.id
      · rw [← hjeq]; simp only [hxid, if_true]; exact rowRel_setFlag rt' hrel
      · rw [← hjeq]; simp only [hxid, if_false]; exact hrel
    · simp only [hmk, if_false] at hj
      exact inv j hj

/-- The per-pair loop only evolves rows along `RowRel`. -/
lemma rel_fold (env : Env) (rt' : ReminderType) (D : List Interview) :
    ∀ (l : List Interview) (st : SweepState),
      (∀ j ∈ st.db, ∃ j0 ∈ D, RowRel j0 j) →
        ∀ j ∈ ((l.foldl (procOne env rt') st).db), ∃ j0 ∈ D, RowRel j0 j := by
  intro l
  induction l with
  | nil => intro st inv; exact inv
  | cons a l ih =>
    intro st inv
    rw [List.foldl_cons]
    exact ih _ (rel_procOne env rt' st a D inv)

/-- Every row of the post-sweep table descends from a pre-sweep row. -/
lemma rel_sweep (env : Env) (ls : List Interview × List Interview) :
    ∀ j ∈ (sweepFold env ls).db, ∃ j0 ∈ env.db, RowRel j0 j := by
  unfold sweepFold
  apply rel_fold
  apply rel_fold
  intro j hj
  exact ⟨j, hj, rowRel_refl j⟩

/-- A loop over pairs without recipients pushes no transport event. -/
lemma trace_noPush_fold (env : Env) (rt : ReminderType) :
    ∀ (l : List Interview) (st : SweepState),
      (∀ i ∈ l, hasRecipient env i = false) →
      (∀ e ∈ st.trace, e.isPush = false) →
        ∀ e ∈ ((l.foldl (procOne env rt) st).trace), e.isPush = false := by
  intro l
  induction l with
  | nil => intro st _ h; exact h
  | cons a l ih =>
    intro st hl h
    rw [List.foldl_cons]
    apply ih _ (fun i hi => hl i (List.mem_cons_of_mem a hi))
    cases henv : (env.bishop <|> a.user_id) with
    | some t =>
      have hcon := hl a (List.mem_cons_self a l)
      rw [hasRecipient, henv] at hcon
      simp at hcon
    | none =>
      rw [procOne_none env rt st a henv]
      intro e he
      rcases List.mem_append.mp he with h1 | h2
      · exact h e h1
      · simp at h2
        subst h2
        rfl

/-- The recipient test ignores the table contents. -/
lemma hasRecipient_db (env : Env) (X : List Interview) (i : Interview) :
    hasRecipient { env with db := X } i = hasRecipient env i := rfl

/-- After a sweep with a reliable store, no 24h-due row of the new table has
a recipient (every such row would have been marked by the first run). -/
lemma run2_noRecipient24 (env : Env)
    (hm : ∀ (n : Nat) (rt : ReminderType), env.markOk n rt = true)
    (hf : env.fetchErr = none) :
    ∀ i ∈ (dueLists { env with db := (processReminders env).db }).1,
      hasRecipient env i = false := by
  intro i hi
  cases hrec : hasRecipient env i with
  | false => rfl
  | true =>
    exfalso
    have hdb1 : (processReminders env).db = (sweepFold env (dueLists env)).db := by
      rw [processReminders_ok env hf]
    rw [dueLists] at hi
    simp only [List.mem_filter] at hi
    obtain ⟨hfetch, hdue⟩ := hi
    have hnow : Env.now { env with db := (processReminders env).db } = env.now := rfl
    rw [hnow] at hdue
    rw [mem_fetchCandidates] at hfetch
    obtain ⟨hidb, _, hday⟩ := hfetch
    rw [hdb1] at hidb
    obtain ⟨j0, hj0db, hrel⟩ := rel_sweep env (dueLists env) i hidb
    obtain ⟨hid, huid, hdayeq, htod, hmono24, _⟩ := hrel
    rw [due24_iff] at hdue
    obtain ⟨hflag, hlb, hub⟩ := hdue
    have hflag0 : j0.reminder_24h_sent = false := by
      cases h0 : j0.reminder_24h_sent
      · rfl
      · rw [hmono24 h0] at hflag; exact absurd hflag (by simp)
    have hdiff : diffSecs j0 env.now = diffSecs i env.now := by
      simp [diffSecs, Interview.target, hdayeq, htod]
    have hdue0 : due24 j0 env.now = true := by
      rw [due24_iff]
      exact ⟨hflag0, by rw [hdiff]; exact hlb, by rw [hdiff]; exact hub⟩
    have hj0fetch : j0 ∈ fetchCandidates env.db env.nowDay := by
      rw [mem_fetchCandidates]
      refine ⟨hj0db, Or.inl hflag0, ?_⟩
      rw [← hdayeq]
      exact hday
    have hj0due : j0 ∈ (dueLists env).1 := by
      rw [dueLists]
      simp only [List.mem_filter]
      exact ⟨hj0fetch, hdue0⟩
    have hr0 : hasRecipient env j0 = true := by
      rw [hasRecipient] at hrec ⊢
      rw [huid] at hrec
      exact hrec
    have hmkd : Marked (sweepFold env (dueLists env)).db j0.id .h24 := by
      unfold sweepFold
      apply Marked_fold
      exact Marked_in_fold env .h24 hm _ _ j0 hj0due hr0
    have hset := hmkd i hidb hid
    rw [show flagOf .h24 i = i.reminder_24h_sent from rfl, hflag] at hset
    exact absurd hset (by simp)

/-- After a sweep with a reliable store, no 3h-due row of the new table has
a recipient. -/
lemma run2_noRecipient3 (env : Env)
    (hm : ∀ (n : Nat) (rt : ReminderType), env.markOk n rt = true)
    (hf : env.fetchErr = none) :
    ∀ i ∈ (dueLists { env with db := (processReminders env).db }).2,
      hasRecipient env i = false := by
  intro i hi
  cases hrec : hasRecipient env i with
  | false => rfl
  | true =>
    exfalso
    have hdb1 : (processReminders env).db = (sweepFold env (dueLists env)).db := by
      rw [processReminders_ok env hf]
    rw [dueLists] at hi
    simp only [List.mem_filter] at hi
    obtain ⟨hfetch, hdue⟩ := hi
    have hnow : Env.now { env with db := (processReminders env).db } = env.now := rfl
    rw [hnow] at hdue
    rw [mem_fetchCandidates] at hfetch
    obtain ⟨hidb, _, hday⟩ := hfetch
    rw [hdb1] at hidb
    obtain ⟨j0, hj0db, hrel⟩ := rel_sweep env (dueLists env) i hidb
    obtain ⟨hid, huid, hdayeq, htod, _, hmono3⟩ := hrel
    rw [due3_iff] at hdue
    obtain ⟨hflag, hlb, hub⟩ := hdue
    have hflag0 : j0.reminder_3h_sent = false := by
      cases h0 : j0.reminder_3h_sent
      · rfl
      · rw [hmono3 h0] at hflag; exact absurd hflag (by simp)
    have hdiff : diffSecs j0 env.now = diffSecs i env.now := by
      simp [diffSecs, Interview.target, hdayeq, htod]
    have hdue0 : due3 j0 env.now = true := by
      rw [due3_iff]
      exact ⟨hflag0, by rw [hdiff]; exact hlb, by rw [hdiff]; exact hub⟩
    have hj0fetch : j0 ∈ fetchCandidates env.db env.nowDay := by
      rw [mem_fetchCandidates]
      refine ⟨hj0db, Or.inr hflag0, ?_⟩
      rw [← hdayeq]
      exact hday
    have hj0due : j0 ∈ (dueLists env).2 := by
      rw [dueLists]
      simp only [List.mem_filter]
      exact ⟨hj0fetch, hdue0⟩
    have hr0 : hasRecipient env j0 = true := by
      rw [hasRecipient] at hrec ⊢
      rw [huid] at hrec
      exact hrec
    have hmkd : Marked (sweepFold env (dueLists env)).db j0.id .h3 := by
      unfold sweepFold
      exact Marked_in_fold env .h3 hm _ _ j0 hj0due hr0
    have hset := hmkd i hidb hid
    rw [show flagOf .h3 i = i.reminder_3h_sent from rfl, hflag] at hset
    exact absurd hset (by simp)

/-- C2: the Evaluator excludes every pair whose sent flag is true, so —
given that `markBucketSent` succeeds wherever invoked (the claim's premise
that marking returned success) — running the sweep twice in immediate
succession with no new events created between runs yields zero new sends on
the second run: its `totalSent` is 0 and its trace contains no transport
push. -/
theorem sweep_idempotent (env : Env)
    (hm : ∀ (n : Nat) (rt : ReminderType), env.markOk n rt = true)
    (hf : env.fetchErr = none) :
    (∀ (i : Interview) (t : Int), i.reminder_24h_sent = true → due24 i t = false) ∧
    (∀ (i : Interview) (t : Int), i.reminder_3h_sent = true → due3 i t = false) ∧
    (processReminders { env with db := (processReminders env).db }).totalSent = 0 ∧
    (∀ e ∈ (processReminders { env with db := (processReminders env).db }).trace,
      e.isPush = false) := by
  have h24 := run2_noRecipient24 env hm hf
  have h3 := run2_noRecipient3 env hm hf
  refine ⟨?_, ?_, ?_, ?_⟩
  · intro i t h
    simp [due24, h]
  · intro i t h
    simp [due3, h]
  · rw [processReminders_ok { env with db := (processReminders env).db } hf]
    unfold sweepFold
    rw [foldl_totalSent, foldl_totalSent]
    have z1 : (dueLists { env with db := (processReminders env).db }).1.countP
        (hasRecipient { env with db := (processReminders env).db }) = 0 := by
      rw [List.countP_eq_zero]
      intro a ha
      rw [hasRecipient_db]
      simp [h24 a ha]
    have z2 : (dueLists { env with db := (processReminders env).db }).2.countP
        (hasRecipient { env with db := (processReminders env).db }) = 0 := by
      rw [List.countP_eq_zero]
      intro a ha
      rw [hasRecipient_db]
      simp [h3 a ha]
    rw [z1, z2]
  · rw [processReminders_ok { env with db := (processReminders env).db } hf]
    unfold sweepFold
    apply trace_noPush_fold
    · intro i hi
      rw [hasRecipient_db]
      exact h3 i hi
    · apply trace_noPush_fold
      · intro i hi
        rw [hasRecipient_db]
        exact h24 i hi
      · intro e he
        simp at he

/-- Concrete environment for the C2 witness: one 24h-due interview, fixed
recipient configured, transport and store reliable. -/
def envIdem : Env :=
  { db := [⟨11, some "U", "N", 1, 0, none, false, false⟩], nowDay := 0,
    nowTod := 0, bishop := some "B11", pushOk := fun _ => true,
    markOk := fun _ _ => true, fetchErr := none }

/-- C2 (witness): a second immediate sweep over the concrete environment
sends nothing. -/
theorem sweep_idempotent_witness :
    (processReminders { envIdem with db := (processReminders envIdem).db }).totalSent
      = 0 :=
  (sweep_idempotent envIdem (fun _ _ => rfl) rfl).2.2.1

/-- Processing a reminder contributes no error entry exactly when neither its
send nor its mark throws. -/
lemma reminderErrEntry_isNone (sendErr : Reminder → Option String)
    (markErr : Nat → Option String) (r : Reminder) :
    (reminderErrEntry sendErr markErr r).isNone
      = ((sendErr r).isNone && (markErr r.id).isNone) := by
  unfold reminderErrEntry
  cases sendErr r <;> cases markErr r.id <;> simp

/-- Closed form of the `sendDueReminders` loop. -/
lemma dueStep_foldl (sendErr : Reminder → Option String)
    (markErr : Nat → Option String) :
    ∀ (l : List Reminder) (a b : Nat) (c : List ReminderErrorInfo),
      l.foldl (dueStep sendErr markErr) (a, b, c)
        = (a + l.countP (fun r => (reminderErrEntry sendErr markErr r).isNone),
           b + (l.filterMap (reminderErrEntry sendErr markErr)).length,
           c ++ l.filterMap (reminderErrEntry sendErr markErr)) := by
  intro l
  induction l with
  | nil => intro a b c; simp
  | cons r l ih =>
    intro a b c
    rw [List.foldl_cons]
    cases he : reminderErrEntry sendErr markErr r with
    | none =>
      simp only [dueStep, he]
      rw [ih]
      simp [List.countP_cons, List.filterMap_cons, he]
      omega
    | some e =>
      simp only [dueStep, he]
      rw [ih]
      simp [List.countP_cons, List.filterMap_cons, he]
      omega

/-- The filtered-out entries count the failing reminders. -/
lemma filterMap_length_countP {α β : Type} (f : α → Option β) (l : List α) :
    (l.filterMap f).length = l.countP (fun a => (f a).isSome) := by
  induction l with
  | nil => simp
  | cons a l ih =>
    cases h : f a <;> simp [List.filterMap_cons, h, List.countP_cons, ih]

/-- Failing and non-failing reminders partition the list. -/
lemma countP_isNone_isSome {α β : Type} (f : α → Option β) (l : List α) :
    l.countP (fun a => (f a).isNone) + l.countP (fun a => (f a).isSome)
      = l.length := by
  induction l with
  | nil => simp
  | cons a l ih => cases h : f a <;> simp [List.countP_cons, h] <;> omega

/-- C9 (amended): for every NONEMPTY fetched list of due reminders, the
aggregate of `sendDueReminders` satisfies `totalProcessed` = the number
fetched, `remindersSent` counts exactly the reminders whose send and mark
both completed without throwing, `errorDetails` is exactly one
`{reminderId, userId, error}` entry per failing reminder in order, and
`remindersSent + length errorDetails = totalProcessed`.  (On an empty fetch
the function instead returns early without those fields — see the
counterexample.) -/
theorem sendDue_aggregate (dues : List Reminder)
    (sendErr : Reminder → Option String) (markErr : Nat → Option String)
    (h : dues ≠ []) :
    (sendDueReminders dues sendErr markErr).totalProcessed = some dues.length ∧
    (sendDueReminders dues sendErr markErr).remindersSent
      = dues.countP (fun r => (sendErr r).isNone && (markErr r.id).isNone) ∧
    (sendDueReminders dues sendErr markErr).errorDetails
      = some (dues.filterMap (reminderErrEntry sendErr markErr)) ∧
    (sendDueReminders dues sendErr markErr).remindersSent
        + ((sendDueReminders dues sendErr markErr).errorDetails.getD []).length
      = dues.length := by
  have hne : dues.isEmpty = false := by
    cases dues with
    | nil => exact absurd rfl h
    | cons a l => rfl
  unfold sendDueReminders
  rw [hne]
  simp only [Bool.false_eq_true, if_false]
  rw [dueStep_foldl]
  refine ⟨trivial, ?_, ?_, ?_⟩
  · simp only [Nat.zero_add]
    exact List.countP_congr fun r _ => by rw [reminderErrEntry_isNone]
  · simp only [Nat.zero_add, List.nil_append]
  · simp only [Nat.zero_add, Option.getD_some, List.nil_append]
    rw [filterMap_length_countP]
    exact countP_isNone_isSome (reminderErrEntry sendErr markErr) dues

/-- C9 (counterexample): on an empty fetched list the aggregate has no
`totalProcessed` field at all (and no `errorDetails`), so the claimed
equation `remindersSent + length errorDetails = totalProcessed = 0` cannot
hold of it. -/
theorem sendDue_aggregate_cex :
    (sendDueReminders [] (fun _ => none) (fun _ => none)).totalProcessed
        ≠ some (([] : List Reminder).length) ∧
    (sendDueReminders [] (fun _ => none) (fun _ => none)).errorDetails = none ∧
    (sendDueReminders [] (fun _ => none) (fun _ => none)).remindersSent = 0 := by
  refine ⟨by decide, by decide, by decide⟩

/-- Concrete due list for the C9 witness. -/
def duesW : List Reminder := [⟨21, "UA", "hello"⟩, ⟨22, "UB", "hi"⟩]

/-- C9 (witness): the aggregate equation at a concrete two-element list where
the second reminder's mark throws. -/
theorem sendDue_aggregate_witness :
    duesW ≠ [] ∧
    (sendDueReminders duesW (fun _ => none)
        (fun n => if n == 22 then some "db down" else none)).remindersSent
      + ((sendDueReminders duesW (fun _ => none)
          (fun n => if n == 22 then some "db down" else none)).errorDetails.getD []).length
      = duesW.length :=
  ⟨by decide,
    (sendDue_aggregate duesW (fun _ => none)
      (fun n => if n == 22 then some "db down" else none) (by decide)).2.2.2⟩

example : (parseReminderCommand 0 "/add 2024-01-15 14:30 buy milk").isSome = true := by
  decide

example : (parseReminderCommand 0 "/add 2024-02-30 14:30 x").isSome = false := by
  decide

example : (parseReminderCommand 0 "/add 2024-01-15 9:30 x").isSome = false := by
  decide

example : (parseReminderCommand 99999999999 "/add 2024-01-15 14:30 x").isSome = false := by
  decide

/-- C10: `parseReminderCommand` returns a non-null result exactly when the
input, after stripping the leading `/add` prefix, splits into at least three
space-separated parts whose first part matches the `YYYY-MM-DD` pattern,
whose second part matches a valid 24-hour `HH:MM` time, and whose combined
date-time instant parses and is strictly later than the current time; for
every other input it returns null, and it never throws (the model is a total
function). -/
theorem parseReminderCommand_spec (now : Nat) (s : String) :
    (parseReminderCommand now s).isSome = true ↔ claimedParseAccepts now s := by
  unfold parseReminderCommand claimedParseAccepts
  set cmd := jsTrim (stripAdd s) with hcmd
  by_cases hc : cmd = ""
  · rw [hc]
    have hsplit : splitSp "" = [""] := rfl
    simp [hsplit]
  · have hbeq : (cmd == "") = false := by simp [hc]
    simp only [hbeq, Bool.false_eq_true, if_false]
    cases hsp : splitSp cmd with
    | nil => simp
    | cons d rest =>
      cases rest with
      | nil => simp
      | cons t rest2 =>
        cases rest2 with
        | nil => simp
        | cons x xs =>
          simp only [List.isEmpty_cons, Bool.false_eq_true, if_false,
            List.headD_cons, List.drop_succ_cons, List.drop_zero, List.length_cons]
          by_cases hd : dateRegexTest d
          · simp only [hd, Bool.not_true, Bool.false_eq_true, if_false]
            by_cases ht : timeRegexTest t
            · simp only [ht, Bool.not_true, Bool.false_eq_true, if_false]
              cases hp : jsParseDateTime d t with
              | none => simp [hp]
              | some tt =>
                by_cases hle : tt ≤ now
                · simp [hp, hle]
                · simp [hp, hle, hd, ht]
                  omega
            · simp [ht]
          · simp [hd]

/-- C1 (witness): the window characterization evaluated at a concrete
unsent interview exactly 24 hours before its target. -/
theorem dueWindow_correct_witness :
    (⟨1, some "U", "N", 1, 0, none, false, false⟩ : Interview).reminder_24h_sent = false ∧
    (47 : ℚ)/2 ≤ ((diffSecs ⟨1, some "U", "N", 1, 0, none, false, false⟩ 0 : Int) : ℚ)/3600 ∧
    ((diffSecs ⟨1, some "U", "N", 1, 0, none, false, false⟩ 0 : Int) : ℚ)/3600 ≤ (49 : ℚ)/2 :=
  (dueWindow_correct ⟨1, some "U", "N", 1, 0, none, false, false⟩ 0).1.mp (by decide)

/-- C3 (witness): in the concrete failed-push run, the mark event at trace
position 2 is indeed preceded by a successful dispatch event for the same
pair. -/
theorem mark_after_dispatch_witness :
    ∃ k : Nat, k < 2 ∧ (processReminders envPushFailCex).trace[k]?
      = some (Ev.dispatch 6 ReminderType.h24 true) :=
  mark_after_dispatch envPushFailCex 2 6 ReminderType.h24 true (by decide)

/-- C10 (witness): a concrete well-formed future command parses. -/
theorem parseReminderCommand_spec_witness :
    (parseReminderCommand 0 "/add 2024-01-15 14:30 buy milk").isSome = true :=
  (parseReminderCommand_spec 0 "/add 2024-01-15 14:30 buy milk").mpr
    ⟨by decide, by decide, by decide, 1084237350, by decide, by decide⟩
